import Mathlib

/-!
Shallow embedding of `src/src/main.rs` (egui + three-d custom-3D-painting demo).

Modelling conventions:
* `f32` scalars are modelled as `ℚ` (exact arithmetic; the demo's decimal
  literals `0.01`, `0.1`, `512.0`, … are exact rationals).  Trigonometry and
  the 4×4 rotation matrix built by `Mat4::from_angle_y` live over `ℝ`.
* Rust panics (`expect`, `unwrap`) during construction are modelled with
  `Except`: an `.error` value is the fatal, unrecoverable outcome.
* The external 3D library's `Context::from_gl_context` (out of scope for the
  repository, consumed through its `Result` interface) is modelled as a
  deterministic function of the opaque glow handle, which carries a flag
  saying whether binding a rendering context to it succeeds.
* `f32::round` is round-half-away-from-zero; the Rust `as` casts from a
  rounded float to `i32`/`u32` saturate at the target type's bounds.
-/

/-- A 3-component `f32` vector (`three_d::vec3`). -/
structure Vec3 where
  x : ℚ
  y : ℚ
  z : ℚ
deriving DecidableEq

/-- `three_d::vec3(x, y, z)`. -/
def vec3 (x y z : ℚ) : Vec3 := ⟨x, y, z⟩

/-- An sRGBA color with 8-bit channels (`three_d::Srgba`). -/
structure Srgba where
  r : ℕ
  g : ℕ
  b : ℕ
  a : ℕ
deriving DecidableEq

/-- `three_d::Srgba::new(r, g, b, a)`. -/
def Srgba.new (r g b a : ℕ) : Srgba := ⟨r, g, b, a⟩

/-- `three_d::Viewport`: x, y are `i32`, width and height are `u32`.
The integer fields are modelled as `ℤ`/`ℕ`; the saturating casts that
produce them keep them inside the `i32`/`u32` ranges. -/
structure Viewport where
  x : ℤ
  y : ℤ
  width : ℕ
  height : ℕ
deriving DecidableEq

/-- `three_d::Degrees` angle wrapper (`degrees(45.0)`). -/
structure Degrees where
  value : ℚ
deriving DecidableEq

/-- `three_d::degrees`. -/
def degrees (v : ℚ) : Degrees := ⟨v⟩

/-- `three_d::Radians` angle wrapper (`radians(angle)`). -/
structure Radians where
  value : ℚ
deriving DecidableEq

/-- `three_d::radians`. -/
def radians (v : ℚ) : Radians := ⟨v⟩

/-- 4×4 `f32` matrix (`three_d::Mat4`), idealised over `ℝ`. -/
abbrev Mat4 := Matrix (Fin 4) (Fin 4) ℝ

/-- `Mat4::from_angle_y(θ)` (cgmath): rotation about the Y axis.  In
row/column form the cgmath matrix has rows
`(c 0 s 0) (0 1 0 0) (-s 0 c 0) (0 0 0 1)` with `c = cos θ`, `s = sin θ`. -/
noncomputable def Mat4.from_angle_y (θ : Radians) : Mat4 :=
  !![Real.cos θ.value, 0, Real.sin θ.value, 0;
     0, 1, 0, 0;
     -Real.sin θ.value, 0, Real.cos θ.value, 0;
     0, 0, 0, 1]

/-- The projection kind stored in a `three_d::Camera`. -/
inductive ProjectionType where
  | orthographic (height : ℚ)
  | perspective (field_of_view_y : Degrees)
deriving DecidableEq

/-- The observable state of a `three_d::Camera`: the construction parameters
plus the (mutable) viewport. -/
structure Camera where
  viewport : Viewport
  position : Vec3
  target : Vec3
  up : Vec3
  projection_type : ProjectionType
  z_near : ℚ
  z_far : ℚ
deriving DecidableEq

/-- `Camera::new_perspective(viewport, position, target, up, fov_y, z_near, z_far)`. -/
def Camera.new_perspective (viewport : Viewport) (position target up : Vec3)
    (field_of_view_y : Degrees) (z_near z_far : ℚ) : Camera :=
  { viewport := viewport, position := position, target := target, up := up,
    projection_type := .perspective field_of_view_y, z_near := z_near, z_far := z_far }

/-- `Camera::set_viewport` replaces the camera's viewport. -/
def Camera.set_viewport (c : Camera) (v : Viewport) : Camera :=
  { c with viewport := v }

/-- The vertex positions of a `three_d::CpuMesh` (`Positions::F32`). -/
inductive Positions where
  | F32 (l : List Vec3)
deriving DecidableEq

/-- Number of vertices held by a `Positions` value. -/
def Positions.len : Positions → ℕ
  | .F32 l => l.length

/-- The fields of `three_d::CpuMesh` that the demo sets (the rest are
defaulted and never read). -/
structure CpuMesh where
  positions : Positions
  colors : Option (List Srgba)
deriving DecidableEq

/-- The opaque glow graphics-context handle supplied by the host
(`Arc<glow::Context>`).  Whether the 3D library can bind a rendering context
to it is abstracted as the flag `context_ok` (spec §7: failure to bind the 3D
library's rendering context to the shared graphics context is a fatal error). -/
structure GlowContext where
  id : ℕ
  context_ok : Bool
deriving DecidableEq

/-- The error of the 3D library's context construction. -/
inductive CoreError where
  | context_creation
deriving DecidableEq

/-- `three_d::Context`: a rendering context bound to an underlying glow
handle, identified by that handle. -/
structure Context where
  gl_id : ℕ
deriving DecidableEq

/-- `three_d::Context::from_gl_context` (external library, consumed through
its `Result`): succeeds iff a rendering context can be bound to the handle,
deterministically in the handle. -/
def Context.from_gl_context (gl : GlowContext) : Except CoreError Context :=
  match gl.context_ok with
  | true => .ok ⟨gl.id⟩
  | false => .error .context_creation

/-- The GPU-side mesh (`three_d::Mesh`): the uploaded vertex data plus the
transformation matrix (identity after `Mesh::new`). -/
structure Mesh where
  positions : Positions
  colors : Option (List Srgba)
  transformation : Mat4

/-- `Mesh::new(context, cpu_mesh)`: uploads the CPU mesh; the transformation
starts as the identity. -/
def Mesh.new (_context : Context) (cpu_mesh : CpuMesh) : Mesh :=
  { positions := cpu_mesh.positions, colors := cpu_mesh.colors, transformation := 1 }

/-- `three_d::ColorMaterial` (the demo uses `ColorMaterial::default()`,
whose color is opaque white). -/
structure ColorMaterial where
  color : Srgba
deriving DecidableEq

/-- `ColorMaterial::default()`. -/
def ColorMaterial.default : ColorMaterial := ⟨Srgba.new 255 255 255 255⟩

/-- `three_d::Gm`: geometry plus material. -/
structure Gm where
  geometry : Mesh
  material : ColorMaterial

/-- `Gm::new(geometry, material)`. -/
def Gm.new (geometry : Mesh) (material : ColorMaterial) : Gm :=
  ⟨geometry, material⟩

/-- `Gm::set_transformation` forwards to the geometry's transformation. -/
def Gm.set_transformation (g : Gm) (t : Mat4) : Gm :=
  { g with geometry := { g.geometry with transformation := t } }

/-- The pixel rectangle reported for the paint callback
(`egui::PaintCallbackInfo::viewport_in_pixels()`): `f32` fields `left_px`,
`top_px`, `from_bottom_px`, `width_px`, `height_px`. -/
structure ViewportInPixels where
  left_px : ℚ
  top_px : ℚ
  from_bottom_px : ℚ
  width_px : ℚ
  height_px : ℚ
deriving DecidableEq

/-- The part of `egui::PaintCallbackInfo` that `paint` reads: the reported
viewport-in-pixels rectangle. -/
structure PaintCallbackInfo where
  viewport_in_pixels : ViewportInPixels
deriving DecidableEq

/-- `f32::round`: round half away from zero, yielding an integral value. -/
def roundF32 (q : ℚ) : ℤ :=
  if 0 ≤ q then ⌊q + 1/2⌋ else ⌈q - 1/2⌉

/-- Rust `as i32` applied to an integral float: saturate to the `i32` range. -/
def asI32 (n : ℤ) : ℤ :=
  max (-(2 ^ 31)) (min (2 ^ 31 - 1) n)

/-- Rust `as u32` applied to an integral float: saturate to the `u32` range. -/
def asU32 (n : ℤ) : ℕ :=
  (min (2 ^ 32 - 1) (max 0 n)).toNat

/-- The renderer adapter `Custom3d`: the stored 3D context, the camera, and
the triangle model. -/
structure Custom3d where
  three_d : Context
  camera : Camera
  model : Gm

/-- `Custom3d::new(gl)` (`src/src/main.rs:89-131`).  Each `unwrap` of
`Context::from_gl_context` is a fatal-on-error step, so the whole
construction is `Except`-valued.  Note the context is constructed twice,
exactly as in the source: once for the mesh build, once for the stored
field. -/
def Custom3d.new (gl : GlowContext) : Except CoreError Custom3d :=
  match Context.from_gl_context gl with
  | .error e => .error e
  | .ok three_d =>
    let positions := [vec3 (1/2) (-(1/2)) 0, vec3 (-(1/2)) (-(1/2)) 0, vec3 0 (1/2) 0]
    let colors := [Srgba.new 255 0 0 255, Srgba.new 0 255 0 255, Srgba.new 0 0 255 255]
    let cpu_mesh : CpuMesh := { positions := .F32 positions, colors := some colors }
    let model := Gm.new (Mesh.new three_d cpu_mesh) ColorMaterial.default
    match Context.from_gl_context gl with
    | .error e => .error e
    | .ok stored =>
      .ok { three_d := stored,
            camera := Camera.new_perspective ⟨0, 0, 0, 0⟩
              (vec3 0 0 2) (vec3 0 0 0) (vec3 0 1 0) (degrees 45) (1/10) 10,
            model := model }

/-- `Custom3d::paint(info, angle)` (`src/src/main.rs:133-155`): derive the
viewport from the reported pixel rectangle (round, then saturating casts,
y taken from the from-bottom offset), install it in the camera, set the
model's transformation to the absolute Y rotation by `angle` radians, and
render (rendering has no effect on the adapter state). -/
noncomputable def Custom3d.paint (s : Custom3d) (info : PaintCallbackInfo) (angle : ℚ) :
    Custom3d :=
  let viewport_pixels := info.viewport_in_pixels
  let viewport : Viewport :=
    { x := asI32 (roundF32 viewport_pixels.left_px),
      y := asI32 (roundF32 viewport_pixels.from_bottom_px),
      width := asU32 (roundF32 viewport_pixels.width_px),
      height := asU32 (roundF32 viewport_pixels.height_px) }
  let s1 := { s with camera := s.camera.set_viewport viewport }
  { s1 with model := s1.model.set_transformation (Mat4.from_angle_y (radians angle)) }

/-- A sequence of paint calls, in order. -/
noncomputable def paints (s : Custom3d) (calls : List (PaintCallbackInfo × ℚ)) : Custom3d :=
  calls.foldl (fun t c => t.paint c.1 c.2) s

/-- The error of application construction: either the host supplied no glow
context (`expect` in `MyApp::new`) or binding the 3D context failed
(`unwrap` in `Custom3d::new`). -/
inductive StartupError where
  | no_glow_backend
  | context_creation_failed
deriving DecidableEq

/-- The part of `eframe::CreationContext` that `MyApp::new` reads: the
optional glow graphics context. -/
structure CreationContext where
  gl : Option GlowContext

/-- The application shell `MyApp`: the renderer adapter (the `Arc<Mutex<…>>`
wrapper is dropped — the model is single-threaded, matching spec §5) and the
accumulated rotation angle. -/
structure MyApp where
  custom_3d : Custom3d
  angle : ℚ

/-- `MyApp::new(cc)` (`src/src/main.rs:36-42`): `expect` the glow context,
then build the adapter; any failure is fatal. -/
def MyApp.new (cc : CreationContext) : Except StartupError MyApp :=
  match cc.gl with
  | none => .error .no_glow_backend
  | some gl =>
    match Custom3d.new gl with
    | .error _ => .error .context_creation_failed
    | .ok c => .ok { custom_3d := c, angle := 0 }

/-- The angle update of `MyApp::custom_painting`
(`self.angle += response.drag_delta().x * 0.01`). -/
def MyApp.update_angle (m : MyApp) (drag_delta_x : ℚ) : MyApp :=
  { m with angle := m.angle + drag_delta_x * (1/100) }

/-- One frame of `MyApp::custom_painting` together with the deferred paint
callback it registers: update the angle, then paint with the angle captured
by value. -/
noncomputable def MyApp.custom_painting (m : MyApp) (drag_delta_x : ℚ)
    (info : PaintCallbackInfo) : MyApp :=
  let m1 := m.update_angle drag_delta_x
  { m1 with custom_3d := m1.custom_3d.paint info m1.angle }

/-- A sequence of per-frame angle updates, in order. -/
def applyDrags (m : MyApp) (ds : List ℚ) : MyApp :=
  ds.foldl MyApp.update_angle m

/-- The spec's proposed variant of `Custom3d::new` that builds the 3D
rendering context exactly once and stores the value it already used for the
mesh build (spec §9), for comparison with `Custom3d.new`. -/
def Custom3d.new_once (gl : GlowContext) : Except CoreError Custom3d :=
  match Context.from_gl_context gl with
  | .error e => .error e
  | .ok three_d =>
    let positions := [vec3 (1/2) (-(1/2)) 0, vec3 (-(1/2)) (-(1/2)) 0, vec3 0 (1/2) 0]
    let colors := [Srgba.new 255 0 0 255, Srgba.new 0 255 0 255, Srgba.new 0 0 255 255]
    let cpu_mesh : CpuMesh := { positions := .F32 positions, colors := some colors }
    let model := Gm.new (Mesh.new three_d cpu_mesh) ColorMaterial.default
    .ok { three_d := three_d,
          camera := Camera.new_perspective ⟨0, 0, 0, 0⟩
            (vec3 0 0 2) (vec3 0 0 0) (vec3 0 1 0) (degrees 45) (1/10) 10,
          model := model }

/-- A glow handle to which the 3D library can bind a context. -/
def glOk : GlowContext := { id := 0, context_ok := true }

/-- A creation context that supplies `glOk`. -/
def ccOk : CreationContext := { gl := some glOk }

/-- The adapter state `Custom3d.new glOk` produces, written out. -/
def sample3d : Custom3d :=
  { three_d := ⟨0⟩,
    camera := Camera.new_perspective ⟨0, 0, 0, 0⟩
      (vec3 0 0 2) (vec3 0 0 0) (vec3 0 1 0) (degrees 45) (1/10) 10,
    model := Gm.new
      (Mesh.new ⟨0⟩
        { positions := .F32 [vec3 (1/2) (-(1/2)) 0, vec3 (-(1/2)) (-(1/2)) 0, vec3 0 (1/2) 0],
          colors := some [Srgba.new 255 0 0 255, Srgba.new 0 255 0 255, Srgba.new 0 0 255 255] })
      ColorMaterial.default }

/-- The application state `MyApp.new ccOk` produces, written out. -/
def sampleApp : MyApp := { custom_3d := sample3d, angle := 0 }

/-- A concrete reported pixel rectangle exercising rounding: half-integers on
both sides of zero and a fractional height. -/
def sampleInfo : PaintCallbackInfo :=
  ⟨{ left_px := 3/2, top_px := 0, from_bottom_px := -(5/2), width_px := 1001/2,
     height_px := 2/5 }⟩

/-- The already-integer 512×512 rectangle at the origin from the end-to-end
scenario. -/
def info512 : PaintCallbackInfo :=
  ⟨{ left_px := 0, top_px := 0, from_bottom_px := 0, width_px := 512, height_px := 512 }⟩

/-! ## Helper lemmas -/

theorem paint_model_transformation (s : Custom3d) (i : PaintCallbackInfo) (a : ℚ) :
    (s.paint i a).model.geometry.transformation = Mat4.from_angle_y (radians a) := rfl

theorem paint_camera_viewport (s : Custom3d) (i : PaintCallbackInfo) (a : ℚ) :
    (s.paint i a).camera.viewport =
      ⟨asI32 (roundF32 i.viewport_in_pixels.left_px),
       asI32 (roundF32 i.viewport_in_pixels.from_bottom_px),
       asU32 (roundF32 i.viewport_in_pixels.width_px),
       asU32 (roundF32 i.viewport_in_pixels.height_px)⟩ := rfl

theorem paint_keeps_mesh_data (s : Custom3d) (i : PaintCallbackInfo) (a : ℚ) :
    (s.paint i a).model.geometry.positions = s.model.geometry.positions ∧
    (s.paint i a).model.geometry.colors = s.model.geometry.colors ∧
    (s.paint i a).model.material = s.model.material ∧
    (s.paint i a).three_d = s.three_d :=
  ⟨rfl, rfl, rfl, rfl⟩

theorem paints_cons (s : Custom3d) (c : PaintCallbackInfo × ℚ)
    (cs : List (PaintCallbackInfo × ℚ)) :
    paints s (c :: cs) = paints (s.paint c.1 c.2) cs := rfl

theorem paints_preserves (s : Custom3d) (calls : List (PaintCallbackInfo × ℚ)) :
    (paints s calls).model.geometry.positions = s.model.geometry.positions ∧
    (paints s calls).model.geometry.colors = s.model.geometry.colors ∧
    (paints s calls).model.material = s.model.material := by
  induction calls generalizing s with
  | nil => exact ⟨rfl, rfl, rfl⟩
  | cons c cs ih =>
    rw [paints_cons]
    obtain ⟨h1, h2, h3⟩ := ih (s.paint c.1 c.2)
    exact ⟨h1, h2, h3⟩

theorem paint_set_three_d (s : Custom3d) (ctx : Context) (i : PaintCallbackInfo) (a : ℚ) :
    Custom3d.paint { s with three_d := ctx } i a = { s.paint i a with three_d := ctx } := rfl

theorem paints_set_three_d (s : Custom3d) (ctx : Context)
    (calls : List (PaintCallbackInfo × ℚ)) :
    paints { s with three_d := ctx } calls = { paints s calls with three_d := ctx } := by
  induction calls generalizing s with
  | nil => rfl
  | cons c cs ih =>
    rw [paints_cons, paint_set_three_d, ih, paints_cons]

theorem applyDrags_angle (m : MyApp) (ds : List ℚ) :
    (applyDrags m ds).angle = m.angle + ds.sum * (1/100) := by
  induction ds generalizing m with
  | nil => simp [applyDrags]
  | cons d ds ih =>
    show (applyDrags (m.update_angle d) ds).angle = _
    rw [ih]
    simp [MyApp.update_angle, List.sum_cons]
    ring

theorem custom3d_new_ok_state {gl : GlowContext} {s : Custom3d}
    (h : Custom3d.new gl = .ok s) :
    s.three_d = ⟨gl.id⟩ ∧
    s.camera = Camera.new_perspective ⟨0, 0, 0, 0⟩
      (vec3 0 0 2) (vec3 0 0 0) (vec3 0 1 0) (degrees 45) (1/10) 10 ∧
    s.model.geometry.positions
      = .F32 [vec3 (1/2) (-(1/2)) 0, vec3 (-(1/2)) (-(1/2)) 0, vec3 0 (1/2) 0] ∧
    s.model.geometry.colors
      = some [Srgba.new 255 0 0 255, Srgba.new 0 255 0 255, Srgba.new 0 0 255 255] ∧
    s.model.geometry.transformation = 1 ∧
    s.model.material = ColorMaterial.default := by
  cases hok : gl.context_ok with
  | false => simp [Custom3d.new, Context.from_gl_context, hok] at h
  | true =>
    simp [Custom3d.new, Context.from_gl_context, hok] at h
    subst h
    refine ⟨rfl, by norm_num, by norm_num [vec3, Gm.new, Mesh.new], rfl, rfl, rfl⟩

theorem myApp_new_ok {cc : CreationContext} {app : MyApp}
    (h : MyApp.new cc = .ok app) :
    app.angle = 0 ∧ ∃ gl, cc.gl = some gl ∧ Custom3d.new gl = .ok app.custom_3d := by
  cases hgl : cc.gl with
  | none => simp [MyApp.new, hgl] at h
  | some gl =>
    cases hc : Custom3d.new gl with
    | error e => simp [MyApp.new, hgl, hc] at h
    | ok c =>
      simp [MyApp.new, hgl, hc] at h
      subst h
      exact ⟨rfl, gl, rfl, hc⟩

theorem asI32_eq {n : ℤ} (h1 : -(2 ^ 31) ≤ n) (h2 : n ≤ 2 ^ 31 - 1) : asI32 n = n := by
  unfold asI32
  omega

theorem asU32_eq {n : ℤ} (h1 : 0 ≤ n) (h2 : n ≤ 2 ^ 32 - 1) : (asU32 n : ℤ) = n := by
  unfold asU32
  omega

/-! ## Claim theorems -/

/-- Claim C1: each paint call sets the mesh transformation to the absolute
rotation about the Y axis by the supplied angle, replacing any previous
transform: after two consecutive paint calls with angles `a` then `b` the
mesh transform is the pure rotation-about-Y by `b`; and (instantiated at the
distinct angles 1 and 2 radians) it is not the composition of the rotations
by the two angles. -/
theorem paint_transform_is_absolute (s : Custom3d) (i1 i2 : PaintCallbackInfo) (a b : ℚ) :
    ((s.paint i1 a).paint i2 b).model.geometry.transformation
        = Mat4.from_angle_y (radians b) ∧
    ¬ (((s.paint i1 1).paint i2 2).model.geometry.transformation
        = Mat4.from_angle_y (radians 1) * Mat4.from_angle_y (radians 2)) := by
  refine ⟨rfl, ?_⟩
  rw [paint_model_transformation]
  intro h
  have h00 := congrFun (congrFun h 0) 0
  simp [Mat4.from_angle_y, Matrix.mul_apply, Fin.sum_univ_four, radians] at h00
  have hc : Real.cos (3 : ℝ) = Real.cos 1 * Real.cos 2 - Real.sin 1 * Real.sin 2 := by
    rw [show (3 : ℝ) = 1 + 2 by norm_num, Real.cos_add]
  have hlt : Real.cos (3 : ℝ) < Real.cos 2 :=
    Real.cos_lt_cos_of_nonneg_of_le_pi (by norm_num) (le_of_lt Real.pi_gt_three)
      (by norm_num)
  rw [hc] at hlt
  linarith

/-- Claim C2: for a reported pixel rectangle with left `L`, from-bottom `B`,
width `W`, height `H` whose rounded values fit the viewport's `i32`/`u32`
fields, the viewport paint installs into the camera is exactly
`{x: round L, y: round B, width: round W, height: round H}`, the y origin
coming from the from-bottom offset; and the round primitive rounds halves
away from zero. -/
theorem paint_viewport_derivation (s : Custom3d) (info : PaintCallbackInfo) (angle : ℚ)
    (hx1 : -(2 ^ 31) ≤ roundF32 info.viewport_in_pixels.left_px)
    (hx2 : roundF32 info.viewport_in_pixels.left_px ≤ 2 ^ 31 - 1)
    (hy1 : -(2 ^ 31) ≤ roundF32 info.viewport_in_pixels.from_bottom_px)
    (hy2 : roundF32 info.viewport_in_pixels.from_bottom_px ≤ 2 ^ 31 - 1)
    (hw1 : 0 ≤ roundF32 info.viewport_in_pixels.width_px)
    (hw2 : roundF32 info.viewport_in_pixels.width_px ≤ 2 ^ 32 - 1)
    (hh1 : 0 ≤ roundF32 info.viewport_in_pixels.height_px)
    (hh2 : roundF32 info.viewport_in_pixels.height_px ≤ 2 ^ 32 - 1) :
    (s.paint info angle).camera.viewport.x = roundF32 info.viewport_in_pixels.left_px ∧
    (s.paint info angle).camera.viewport.y = roundF32 info.viewport_in_pixels.from_bottom_px ∧
    ((s.paint info angle).camera.viewport.width : ℤ)
      = roundF32 info.viewport_in_pixels.width_px ∧
    ((s.paint info angle).camera.viewport.height : ℤ)
      = roundF32 info.viewport_in_pixels.height_px ∧
    (∀ n : ℤ, 0 ≤ n →
      roundF32 ((n : ℚ) + 1/2) = n + 1 ∧ roundF32 (-((n : ℚ) + 1/2)) = -(n + 1)) := by
  rw [paint_camera_viewport]
  refine ⟨asI32_eq hx1 hx2, asI32_eq hy1 hy2, asU32_eq hw1 hw2, asU32_eq hh1 hh2, ?_⟩
  intro n hn
  have hn' : (0 : ℚ) ≤ (n : ℚ) := by exact_mod_cast hn
  constructor
  · rw [roundF32, if_pos (by linarith)]
    rw [show ((n : ℚ) + 1/2) + 1/2 = ((n + 1 : ℤ) : ℚ) by push_cast; ring]
    exact Int.floor_intCast _
  · rw [roundF32, if_neg (by intro hcon; linarith)]
    rw [show (-((n : ℚ) + 1/2)) - 1/2 = ((-(n + 1) : ℤ) : ℚ) by push_cast; ring]
    exact Int.ceil_intCast _

/-- Claim C3: applying the per-frame update `angle += dx * 0.01` to an
initial angle of 0 over a sequence of drag deltas yields `sum * 0.01`, and
any reordering (permutation) of the frame updates yields the same final
angle. -/
theorem angle_accumulation (m : MyApp) (h0 : m.angle = 0) (ds ds' : List ℚ)
    (hperm : ds.Perm ds') :
    (applyDrags m ds).angle = ds.sum * (1/100) ∧
    (applyDrags m ds').angle = (applyDrags m ds).angle := by
  constructor
  · rw [applyDrags_angle, h0, zero_add]
  · rw [applyDrags_angle, applyDrags_angle, hperm.sum_eq]

/-- Witness for C3 at a concrete reordered pair of drag sequences. -/
theorem angle_accumulation_witness :
    (applyDrags sampleApp [1, 2]).angle = ([1, 2] : List ℚ).sum * (1/100) ∧
    (applyDrags sampleApp [2, 1]).angle = (applyDrags sampleApp [1, 2]).angle :=
  angle_accumulation sampleApp rfl [1, 2] [2, 1] (by decide)

/-- Claim C4: end-to-end scenario — from a freshly constructed application
(angle 0), one frame with drag delta `x = +100` whose paint reports the
rectangle (left 0, from-bottom 0, width 512, height 512) leaves the angle at
exactly 1 radian, the mesh transform the rotation-about-Y by exactly 1
radian, and the camera viewport exactly `{x 0, y 0, width 512, height 512}`. -/
theorem end_to_end_scenario (cc : CreationContext) (app : MyApp)
    (h : MyApp.new cc = .ok app) :
    (app.custom_painting 100 info512).angle = 1 ∧
    (app.custom_painting 100 info512).custom_3d.model.geometry.transformation
      = Mat4.from_angle_y (radians 1) ∧
    (app.custom_painting 100 info512).custom_3d.camera.viewport
      = ⟨0, 0, 512, 512⟩ := by
  obtain ⟨hang, -, -, -⟩ := myApp_new_ok h
  refine ⟨?_, ?_, ?_⟩
  · show app.angle + 100 * (1/100) = 1
    rw [hang]
    norm_num
  · show Mat4.from_angle_y (radians (app.angle + 100 * (1/100))) = _
    rw [hang]
    norm_num
  · show Viewport.mk (asI32 (roundF32 info512.viewport_in_pixels.left_px))
      (asI32 (roundF32 info512.viewport_in_pixels.from_bottom_px))
      (asU32 (roundF32 info512.viewport_in_pixels.width_px))
      (asU32 (roundF32 info512.viewport_in_pixels.height_px)) = _
    have h0 : roundF32 0 = 0 := by norm_num [roundF32]
    have h512 : roundF32 512 = 512 := by norm_num [roundF32]
    rw [show info512.viewport_in_pixels.left_px = 0 from rfl,
        show info512.viewport_in_pixels.from_bottom_px = 0 from rfl,
        show info512.viewport_in_pixels.width_px = 512 from rfl,
        show info512.viewport_in_pixels.height_px = 512 from rfl, h0, h512]
    simp only [Viewport.mk.injEq]
    refine ⟨?_, ?_, ?_, ?_⟩ <;> simp only [asI32, asU32] <;> omega

/-- Witness for C4 at the fully concrete constructed application. -/
theorem end_to_end_scenario_witness :
    (sampleApp.custom_painting 100 info512).angle = 1 ∧
    (sampleApp.custom_painting 100 info512).custom_3d.model.geometry.transformation
      = Mat4.from_angle_y (radians 1) ∧
    (sampleApp.custom_painting 100 info512).custom_3d.camera.viewport
      = ⟨0, 0, 512, 512⟩ :=
  end_to_end_scenario ccOk sampleApp rfl

/-- Claim C5: the mesh's vertex data — exactly 3 vertices with the
construction-time positions and colors — is identical after any number of
paint calls with any arguments, and of the model state only the
transformation matrix changes (the material is untouched). -/
theorem mesh_invariance (gl : GlowContext) (s : Custom3d)
    (h : Custom3d.new gl = .ok s) (calls : List (PaintCallbackInfo × ℚ)) :
    (paints s calls).model.geometry.positions
      = .F32 [vec3 (1/2) (-(1/2)) 0, vec3 (-(1/2)) (-(1/2)) 0, vec3 0 (1/2) 0] ∧
    (paints s calls).model.geometry.positions.len = 3 ∧
    (paints s calls).model.geometry.colors
      = some [Srgba.new 255 0 0 255, Srgba.new 0 255 0 255, Srgba.new 0 0 255 255] ∧
    (paints s calls).model.geometry.positions = s.model.geometry.positions ∧
    (paints s calls).model.geometry.colors = s.model.geometry.colors ∧
    (paints s calls).model.material = s.model.material := by
  obtain ⟨-, -, hpos, hcol, -, -⟩ := custom3d_new_ok_state h
  obtain ⟨p1, p2, p3⟩ := paints_preserves s calls
  refine ⟨?_, ?_, ?_, p1, p2, p3⟩
  · rw [p1, hpos]
  · rw [p1, hpos]
    rfl
  · rw [p2, hcol]

/-- Witness for C5 at the concrete construction and a two-call paint
sequence. -/
theorem mesh_invariance_witness :
    (paints sample3d [(sampleInfo, 1), (info512, 2)]).model.geometry.positions
      = .F32 [vec3 (1/2) (-(1/2)) 0, vec3 (-(1/2)) (-(1/2)) 0, vec3 0 (1/2) 0] ∧
    (paints sample3d [(sampleInfo, 1), (info512, 2)]).model.geometry.positions.len = 3 ∧
    (paints sample3d [(sampleInfo, 1), (info512, 2)]).model.geometry.colors
      = some [Srgba.new 255 0 0 255, Srgba.new 0 255 0 255, Srgba.new 0 0 255 255] ∧
    (paints sample3d [(sampleInfo, 1), (info512, 2)]).model.geometry.positions
      = sample3d.model.geometry.positions ∧
    (paints sample3d [(sampleInfo, 1), (info512, 2)]).model.geometry.colors
      = sample3d.model.geometry.colors ∧
    (paints sample3d [(sampleInfo, 1), (info512, 2)]).model.material
      = sample3d.model.material :=
  mesh_invariance glOk sample3d rfl [(sampleInfo, 1), (info512, 2)]

/-- Claim C6: application construction fails (propagates an unrecoverable
error, so no app value is produced) exactly when the host supplies no
graphics context or binding the 3D rendering context to the supplied handle
fails; there is no silently-degraded success path. -/
theorem construction_failure_propagation (cc : CreationContext) :
    (MyApp.new cc).isOk = false
      ↔ cc.gl = none ∨ ∃ gl, cc.gl = some gl ∧ gl.context_ok = false := by
  cases hgl : cc.gl with
  | none => simp [MyApp.new, Except.isOk, Except.toBool, hgl]
  | some gl =>
    cases hok : gl.context_ok with
    | false =>
      simp [MyApp.new, Custom3d.new, Context.from_gl_context, Except.isOk, Except.toBool, hgl, hok]
    | true =>
      simp [MyApp.new, Custom3d.new, Context.from_gl_context, Except.isOk, Except.toBool, hgl, hok]

/-- Claim C7: after a successful construction the shell's angle is 0 and the
adapter's camera is a perspective camera with a zero-sized placeholder
viewport, eye (0,0,2), target (0,0,0), up (0,1,0), 45° field of view, near
plane 0.1 and far plane 10. -/
theorem initial_state (cc : CreationContext) (app : MyApp)
    (h : MyApp.new cc = .ok app) :
    app.angle = 0 ∧
    app.custom_3d.camera.viewport = ⟨0, 0, 0, 0⟩ ∧
    app.custom_3d.camera.position = vec3 0 0 2 ∧
    app.custom_3d.camera.target = vec3 0 0 0 ∧
    app.custom_3d.camera.up = vec3 0 1 0 ∧
    app.custom_3d.camera.projection_type = .perspective (degrees 45) ∧
    app.custom_3d.camera.z_near = 1/10 ∧
    app.custom_3d.camera.z_far = 10 := by
  obtain ⟨hang, gl, -, hc⟩ := myApp_new_ok h
  obtain ⟨-, hcam, -, -, -, -⟩ := custom3d_new_ok_state hc
  rw [hcam]
  exact ⟨hang, rfl, rfl, rfl, rfl, rfl, rfl, rfl⟩

/-- Witness for C7 at the concrete creation context. -/
theorem initial_state_witness :
    sampleApp.angle = 0 ∧
    sampleApp.custom_3d.camera.viewport = ⟨0, 0, 0, 0⟩ ∧
    sampleApp.custom_3d.camera.position = vec3 0 0 2 ∧
    sampleApp.custom_3d.camera.target = vec3 0 0 0 ∧
    sampleApp.custom_3d.camera.up = vec3 0 1 0 ∧
    sampleApp.custom_3d.camera.projection_type = .perspective (degrees 45) ∧
    sampleApp.custom_3d.camera.z_near = 1/10 ∧
    sampleApp.custom_3d.camera.z_far = 10 :=
  initial_state ccOk sampleApp rfl

/-- Claim C8: paint is total — it is a function defined for every adapter
state, every angle and every reported rectangle (negative, fractional or
out-of-range values included), and the viewport it installs always lies
within the `i32`/`u32` field ranges thanks to the saturating casts. -/
theorem paint_total_viewport_in_range (s : Custom3d) (info : PaintCallbackInfo)
    (angle : ℚ) :
    -(2 ^ 31) ≤ (s.paint info angle).camera.viewport.x ∧
    (s.paint info angle).camera.viewport.x ≤ 2 ^ 31 - 1 ∧
    -(2 ^ 31) ≤ (s.paint info angle).camera.viewport.y ∧
    (s.paint info angle).camera.viewport.y ≤ 2 ^ 31 - 1 ∧
    (s.paint info angle).camera.viewport.width ≤ 2 ^ 32 - 1 ∧
    (s.paint info angle).camera.viewport.height ≤ 2 ^ 32 - 1 := by
  rw [paint_camera_viewport]
  refine ⟨?_, ?_, ?_, ?_, ?_, ?_⟩ <;> simp only [asI32, asU32] <;> omega

/-- Claim C9: paint is a deterministic pure function of the adapter state,
the reported rectangle and the angle: equal inputs give equal resulting
adapter states, with no dependence on hidden global state. -/
theorem paint_deterministic (s1 s2 : Custom3d) (i1 i2 : PaintCallbackInfo)
    (a1 a2 : ℚ) (hs : s1 = s2) (hi : i1 = i2) (ha : a1 = a2) :
    s1.paint i1 a1 = s2.paint i2 a2 := by
  subst hs
  subst hi
  subst ha
  rfl

/-- Witness for C9 at concrete equal inputs. -/
theorem paint_deterministic_witness :
    sample3d.paint sampleInfo 0 = sample3d.paint sampleInfo 0 :=
  paint_deterministic sample3d sample3d sampleInfo sampleInfo 0 0 rfl rfl rfl

/-- Claim C10: the construction variant that builds the 3D context once and
reuses it is observationally equivalent to the source's double construction:
the two constructions agree outright, and the stored context field has no
effect on the camera or mesh-transform state after any paint sequence. -/
theorem single_context_construction_equiv (gl : GlowContext) (s : Custom3d)
    (ctx : Context) (calls : List (PaintCallbackInfo × ℚ)) :
    Custom3d.new_once gl = Custom3d.new gl ∧
    (paints { s with three_d := ctx } calls).camera = (paints s calls).camera ∧
    (paints { s with three_d := ctx } calls).model.geometry.transformation
      = (paints s calls).model.geometry.transformation := by
  refine ⟨?_, ?_, ?_⟩
  · cases hok : gl.context_ok <;>
      simp [Custom3d.new, Custom3d.new_once, Context.from_gl_context, hok]
  · rw [paints_set_three_d]
  · rw [paints_set_three_d]

/-- Witness for C2 at a concrete rectangle with half-integer edges on both
sides of zero. -/
theorem paint_viewport_derivation_witness :
    (sample3d.paint sampleInfo 0).camera.viewport.x
      = roundF32 sampleInfo.viewport_in_pixels.left_px ∧
    (sample3d.paint sampleInfo 0).camera.viewport.y
      = roundF32 sampleInfo.viewport_in_pixels.from_bottom_px ∧
    ((sample3d.paint sampleInfo 0).camera.viewport.width : ℤ)
      = roundF32 sampleInfo.viewport_in_pixels.width_px ∧
    ((sample3d.paint sampleInfo 0).camera.viewport.height : ℤ)
      = roundF32 sampleInfo.viewport_in_pixels.height_px ∧
    (∀ n : ℤ, 0 ≤ n →
      roundF32 ((n : ℚ) + 1/2) = n + 1 ∧ roundF32 (-((n : ℚ) + 1/2)) = -(n + 1)) :=
  by
  have hb : roundF32 sampleInfo.viewport_in_pixels.from_bottom_px = -3 := by
    rw [show sampleInfo.viewport_in_pixels.from_bottom_px = -(5/2) from rfl, roundF32,
        if_neg (by norm_num), show (-(5/2 : ℚ)) - 1/2 = ((-3 : ℤ) : ℚ) by norm_num,
        Int.ceil_intCast]
  exact paint_viewport_derivation sample3d sampleInfo 0
    (by norm_num [sampleInfo, roundF32]) (by norm_num [sampleInfo, roundF32])
    (by rw [hb]; norm_num) (by rw [hb]; norm_num)
    (by norm_num [sampleInfo, roundF32]) (by norm_num [sampleInfo, roundF32])
    (by norm_num [sampleInfo, roundF32]) (by norm_num [sampleInfo, roundF32])
